import Mathlib

/-!
Verification development for the real-time direct-messaging subsystem of the
SFCOLAB backend (src/server.js socket wiring and src/routes/message.js).

The JavaScript handlers are shallowly embedded as pure Lean functions:
the in-memory `onlineUsers` Map becomes an association list with the
insertion-order semantics of a JS Map, the MongoDB message collection becomes
a `List Message` with explicit filter/map/sort operations, and the fallible
persistence call becomes an explicit outcome parameter.  JS truthiness of the
string-or-absent payload fields is modelled explicitly on `Option String`.
-/

/- ===== JS Map model (the module-level `onlineUsers` Map) ===== -/

/-- JS `Map.prototype.set`: replace the value in place if the key is present
(keeping its insertion position), otherwise append the new pair at the end. -/
def mapSet : List (String × String) → String → String → List (String × String)
  | [], k, v => [(k, v)]
  | (k1, v1) :: rest, k, v =>
    if k1 = k then (k, v) :: rest else (k1, v1) :: mapSet rest k v

/-- JS `Map.prototype.delete`: remove the entry with the given key. -/
def mapDelete : List (String × String) → String → List (String × String)
  | [], _ => []
  | (k1, v1) :: rest, k =>
    if k1 = k then rest else (k1, v1) :: mapDelete rest k

/-- JS `Map.prototype.get`: first value stored under the key, if any. -/
def mapLookup : List (String × String) → String → Option String
  | [], _ => none
  | (k1, v1) :: rest, k => if k1 = k then some v1 else mapLookup rest k

/-- JS `Array.from(map.keys())`: the keys in insertion order. -/
def mapKeys (m : List (String × String)) : List String :=
  m.map (fun p => p.1)

/- ===== Presence registry events (socket connection and disconnect) ===== -/

/-- A socket lifecycle event as seen by the server: each socket is
authenticated as a user and has a socket id.  The `disconnect` event carries
the socket id of the closing connection, although the handler in
src/server.js only reads `socket.user.userId`. -/
inductive SocketEvent where
  | connect (userId socketId : String)
  | disconnect (userId socketId : String)

/-- One step of the presence registry: on connection
`onlineUsers.set(socket.user.userId, socket.id)`, on disconnect
`onlineUsers.delete(socket.user.userId)` (the socket id is not consulted). -/
def applyEvent (m : List (String × String)) : SocketEvent → List (String × String)
  | SocketEvent.connect u s => mapSet m u s
  | SocketEvent.disconnect u _ => mapDelete m u

/-- Run a sequence of socket events against the registry. -/
def runEvents (m : List (String × String)) : List SocketEvent → List (String × String)
  | [] => m
  | e :: es => runEvents (applyEvent m e) es

/-- The connection-admission steps of the handler in src/server.js that touch
presence: register the user in `onlineUsers`, then snapshot
`Array.from(onlineUsers.keys())` for the `initialOnlineStatus` push.
Returns the updated registry and the snapshot. -/
def connectionAdmit (m : List (String × String)) (userId socketId : String) :
    List (String × String) × List String :=
  let m1 := mapSet m userId socketId
  (m1, mapKeys m1)

/- ===== Message data model ===== -/

/-- Modelled from the spec: the attachment descriptor of a message.  The
mongoose Message schema is not among the provided sources
(src/models/schemas.js defines no Message model), so the descriptor follows
section 3 of the spec: a binary reference plus metadata, abstracted to one
payload string, and a flag distinguishing a voice note from a generic file. -/
structure FileDesc where
  payload : String
  isVoiceNote : Bool
deriving Repr, DecidableEq

/-- Modelled from the spec: the persisted Message document.  The mongoose
Message schema itself is missing from the provided sources; the fields follow
section 3 of the spec and the handler code in src/server.js and
src/routes/message.js that reads and writes them.  `mongoId` embeds the
store-assigned identifier, and timestamps are modelled as integers. -/
structure Message where
  mongoId : String
  senderId : String
  recipientId : String
  content : String
  file : Option FileDesc
  messageType : String
  status : String
  isRead : Bool
  timestamp : Int
deriving Repr, DecidableEq

/-- The server state touched by the socket handlers: the persisted message
collection and the in-memory online-user registry. -/
structure ServerState where
  store : List Message
  onlineUsers : List (String × String)
deriving Repr, DecidableEq

/-- The messageView payload shape pushed to clients and returned in acks:
id (display-prefixed store identifier, or the client temp id in the send
ack), the message fields, and the perspective flag isOwn. -/
structure MessageView where
  id : String
  senderId : String
  recipientId : String
  content : String
  file : Option FileDesc
  timestamp : Int
  status : String
  isRead : Bool
  isOwn : Bool
deriving Repr, DecidableEq

/-- Acknowledgement callback payload: on success the optional message is a
messageView (sendMessage) or absent (markAsRead); on error the optional
message is a human-readable string (absent in the markAsRead catch branch). -/
inductive Ack where
  | success (message : Option MessageView)
  | error (message : Option String)
deriving Repr, DecidableEq

/-- JS truthiness of an optional string field: absent and the empty string
are falsy. -/
def jsTruthyStr : Option String → Bool
  | none => false
  | some s => !s.isEmpty

/-- The sendMessage payload, as destructured by the handler in src/server.js:
recipientId, content, file, senderName and tempId (senderName is destructured
but never used). -/
structure SendData where
  recipientId : Option String
  content : Option String
  file : Option FileDesc
  senderName : Option String
  tempId : Option String
deriving Repr, DecidableEq

/-- The document constructed by `new Message({...})` in the sendMessage
handler, carrying the store-assigned identifier and creation timestamp of a
successful save: content defaults to the empty string, messageType is
voice_note when the file is flagged as a voice note, file when any file
descriptor is present, text otherwise; status starts as sent and isRead as
false. -/
def buildMessage (userId recipientId content : String) (file : Option FileDesc)
    (mid : String) (ts : Int) : Message :=
  { mongoId := mid
    senderId := userId
    recipientId := recipientId
    content := content
    file := file
    messageType :=
      match file with
      | some f => if f.isVoiceNote then "voice_note" else "file"
      | none => "text"
    status := "sent"
    isRead := false
    timestamp := ts }

/-- The messageResponse object built by the sendMessage handler from the
saved document: the display-prefixed id and the persisted fields.  The
perspective flag is added at each use site, so it starts as false here. -/
def messageResponseOf (saved : Message) : MessageView :=
  { id := "msg_" ++ saved.mongoId
    senderId := saved.senderId
    recipientId := saved.recipientId
    content := saved.content
    file := saved.file
    timestamp := saved.timestamp
    status := saved.status
    isRead := saved.isRead
    isOwn := false }

/-- The sendMessage handler of src/server.js.  `persist` models the outcome
of `newMessage.save()` inside the try block: `none` is a thrown persistence
error (caught by the handler), `some (mid, ts)` is success with the
store-assigned identifier and creation timestamp.  Returns the new server
state, the optional `newMessage` push as a pair of recipient socket id and
payload, and the acknowledgement passed to the callback. -/
def sendMessage (st : ServerState) (userId : String) (data : SendData)
    (persist : Option (String × Int)) :
    ServerState × Option (String × MessageView) × Ack :=
  if !(jsTruthyStr data.recipientId) then
    (st, none, Ack.error (some "Recipient ID is required"))
  else
    match persist with
    | none => (st, none, Ack.error (some "Failed to send message"))
    | some (mid, ts) =>
      let recipientId := data.recipientId.getD ""
      let saved := buildMessage userId recipientId (data.content.getD "")
        data.file mid ts
      let messageResponse := messageResponseOf saved
      let push := (mapLookup st.onlineUsers recipientId).map
        (fun sid => (sid, { messageResponse with isOwn := false }))
      let ack := Ack.success (some
        { messageResponse with
          isOwn := true
          id :=
            match data.tempId with
            | some t => if t.isEmpty then "msg_" ++ mid else t
            | none => "msg_" ++ mid })
      ({ st with store := st.store ++ [saved] }, push, ack)

/-- Remove the first occurrence of the pattern from a character list, as JS
String.prototype.replace does with a string pattern and empty replacement. -/
def replaceFirstAux (pat : List Char) : List Char → List Char
  | [] => []
  | c :: cs =>
    if pat.isPrefixOf (c :: cs) then (c :: cs).drop pat.length
    else c :: replaceFirstAux pat cs

/-- The id normalisation of the markAsRead handler: strip the first
occurrence of the display marker from a caller-visible message id, as in
the JS replace call with pattern msg_ and empty replacement. -/
def stripMsgId (s : String) : String :=
  String.mk (replaceFirstAux "msg_".toList s.toList)

/-- JS new Set(iterable) spread back into an array: keep the first
occurrence of each element, in order. -/
def jsSetOfList (l : List String) : List String :=
  l.foldl (fun acc a => if a ∈ acc then acc else acc ++ [a]) []

/-- The countDocuments query used for unread counts: messages from the given
sender to the given recipient that are still unread. -/
def countUnread (store : List Message) (senderId recipientId : String) : Nat :=
  (store.filter (fun m =>
    decide (m.senderId = senderId ∧ m.recipientId = recipientId ∧
      m.isRead = false))).length

/-- The updateMany step of the markAsRead handler: every stored message whose
id is in the stripped id set and whose recipient is the caller gets isRead
true and status read; every other message is left alone. -/
def markAsReadStore (store : List Message) (callerId : String)
    (mongoIds : List String) : List Message :=
  store.map (fun m =>
    if m.mongoId ∈ mongoIds ∧ m.recipientId = callerId then
      { m with isRead := true, status := "read" }
    else m)

/-- The notification step of the markAsRead handler, run on the updated
store: load all messages whose id is in the stripped id set (with no
recipient restriction), take their distinct senders, and for each sender
registered online push the count of messages from that sender to the caller
that remain unread. -/
def markAsReadPushes (store2 : List Message) (online : List (String × String))
    (callerId : String) (mongoIds : List String) : List (String × Nat) :=
  (jsSetOfList ((store2.filter (fun m => decide (m.mongoId ∈ mongoIds))).map
      (fun m => m.senderId))).filterMap
    (fun s => (mapLookup online s).map
      (fun sid => (sid, countUnread store2 s callerId)))

/-- The markAsRead handler of src/server.js: strip the display marker from
each caller-visible id, apply the recipient-restricted batch update, then
compute the unreadCountUpdate pushes from all batch messages, and
acknowledge the caller with success.  Returns the new state, the list of
pushes as pairs of socket id and count, and the acknowledgement. -/
def markAsRead (st : ServerState) (callerId : String)
    (messageIds : List String) : ServerState × List (String × Nat) × Ack :=
  let mongoIds := messageIds.map stripMsgId
  let store2 := markAsReadStore st.store callerId mongoIds
  ({ st with store := store2 },
   markAsReadPushes store2 st.onlineUsers callerId mongoIds,
   Ack.success none)

/-- Extract the message id carried by a success acknowledgement. -/
def ackMessageId : Ack → Option String
  | Ack.success (some v) => some v.id
  | _ => none

/-- Extract the message id carried by an optional push payload. -/
def pushMessageId (p : Option (String × MessageView)) : Option String :=
  p.map (fun q => q.2.id)

/- ===== History and contacts query routes ===== -/

/-- The participant-pair filter of the history and latest-message queries:
either orientation of sender and recipient between the two users. -/
def pairMatch (userId contactId : String) (m : Message) : Bool :=
  decide ((m.senderId = userId ∧ m.recipientId = contactId) ∨
    (m.senderId = contactId ∧ m.recipientId = userId))

/-- The GET history route of src/routes/message.js: every message between
the pair in either orientation, sorted by timestamp ascending (the Mongo
sort modelled as a stable insertion sort), formatted with the
display-prefixed id and the isOwn flag of the requesting user. -/
def getHistory (store : List Message) (userId contactId : String) :
    List MessageView :=
  (List.insertionSort (fun a b : Message => a.timestamp ≤ b.timestamp)
      (store.filter (pairMatch userId contactId))).map
    (fun m =>
      { id := "msg_" ++ m.mongoId
        senderId := m.senderId
        recipientId := m.recipientId
        content := m.content
        file := m.file
        timestamp := m.timestamp
        status := m.status
        isRead := m.isRead
        isOwn := m.senderId == userId })

/-- The findOne query for the contact preview: the most recent message
between the pair (Mongo sort by timestamp descending, head of the result). -/
def latestMessage (store : List Message) (userId contactId : String) :
    Option Message :=
  (List.insertionSort (fun a b : Message => b.timestamp ≤ a.timestamp)
    (store.filter (pairMatch userId contactId))).head?

/-- A user record of the external user store, as read by the contacts
route. -/
structure UserRec where
  userId : String
  name : String
  avatar : String
deriving Repr, DecidableEq

/-- One entry of the contacts response. -/
structure ContactEntry where
  id : String
  name : String
  avatar : String
  status : String
  isOnline : Bool
  lastMessage : String
  unreadCount : Nat
deriving Repr, DecidableEq

/-- One contact summary built by the contacts route: display name from the
user store with the placeholder fallback (JS truthiness: a found user with
an empty name also falls back), presence from the online registry, the
preview text of the latest message (its content if truthy, else the File
label when the message has a file, else empty), and the unread count from
that contact to the requester. -/
def contactCard (store : List Message) (users : List UserRec)
    (online : List (String × String)) (userId contactId : String) :
    ContactEntry :=
  let user := users.find? (fun u => u.userId == contactId)
  let lastMsg := latestMessage store userId contactId
  { id := contactId
    name :=
      match user with
      | some u => if u.name.isEmpty then "User " ++ contactId else u.name
      | none => "User " ++ contactId
    avatar :=
      match user with
      | some u => u.avatar
      | none => ""
    status := if (mapLookup online contactId).isSome then "online" else "offline"
    isOnline := (mapLookup online contactId).isSome
    lastMessage :=
      match lastMsg with
      | some m =>
        if !m.content.isEmpty then m.content
        else if m.file.isSome then "File" else ""
      | none => ""
    unreadCount := countUnread store contactId userId }

/-- The numeric value of the Date built by the contacts sort comparator: the
lastMessage field of an entry is the preview string at that point, so its
timestamp property is undefined; a truthy (non-empty) preview therefore
yields an invalid Date whose value is NaN (none here), and a falsy preview
yields the Date of 0 (some 0). -/
def jsSortTime (c : ContactEntry) : Option Int :=
  if c.lastMessage.isEmpty then some 0 else none

/-- The comparator result bTime - aTime as consumed by Array.prototype.sort:
subtraction involving an invalid Date is NaN, and ECMAScript SortCompare
treats a NaN comparator result as zero. -/
def jsCompareEffective (a b : ContactEntry) : Int :=
  match jsSortTime b, jsSortTime a with
  | some x, some y => x - y
  | _, _ => 0

/-- The contacts route of src/routes/message.js: map each counterpart id to
its contact summary, then apply the JS sort (stable, per the ECMAScript
specification) with the comparator above.  The enumeration order of the
counterpart ids produced by the aggregation is a parameter, since Mongo
addToSet does not specify an order. -/
def getContacts (store : List Message) (users : List UserRec)
    (online : List (String × String)) (userId : String)
    (contactIds : List String) : List ContactEntry :=
  List.insertionSort (fun a b => jsCompareEffective a b ≤ 0)
    (contactIds.map (contactCard store users online userId))

/- ===== Theorems ===== -/

theorem mem_mapKeys_mapSet (m : List (String × String)) (k v : String) :
    ∀ x, x ∈ mapKeys (mapSet m k v) ↔ x ∈ mapKeys m ∨ x = k := by
  intro x
  induction m with
  | nil => simp [mapSet, mapKeys]
  | cons p rest ih =>
    obtain ⟨k1, v1⟩ := p
    by_cases h : k1 = k
    · subst h
      rw [show mapSet ((k1, v1) :: rest) k1 v = (k1, v) :: rest from by
        simp [mapSet]]
      show x ∈ k1 :: mapKeys rest ↔ x ∈ k1 :: mapKeys rest ∨ x = k1
      constructor
      · exact Or.inl
      · rintro (hx | rfl)
        · exact hx
        · exact List.mem_cons_self _ _
    · simp only [mapSet, if_neg h, mapKeys, List.map_cons, List.mem_cons]
      rw [show (x ∈ List.map (fun p => p.1) (mapSet rest k v)) =
          (x ∈ mapKeys (mapSet rest k v)) from rfl, ih]
      show x = k1 ∨ x ∈ mapKeys rest ∨ x = k ↔ (x = k1 ∨ x ∈ mapKeys rest) ∨ x = k
      tauto

theorem self_mem_mapKeys_mapSet (m : List (String × String)) (k v : String) :
    k ∈ mapKeys (mapSet m k v) :=
  (mem_mapKeys_mapSet m k v k).mpr (Or.inr rfl)

theorem mapLookup_eq_none_of_not_mem (m : List (String × String)) (k : String)
    (h : k ∉ mapKeys m) : mapLookup m k = none := by
  induction m with
  | nil => rfl
  | cons p rest ih =>
    obtain ⟨k1, v1⟩ := p
    simp only [mapKeys, List.map_cons, List.mem_cons, not_or] at h
    have hk : k1 ≠ k := fun e => h.1 e.symm
    simp only [mapLookup, if_neg hk]
    exact ih (by simpa [mapKeys] using h.2)

theorem nodup_mapKeys_mapSet (m : List (String × String)) (k v : String)
    (h : (mapKeys m).Nodup) : (mapKeys (mapSet m k v)).Nodup := by
  induction m with
  | nil => simp [mapSet, mapKeys]
  | cons p rest ih =>
    obtain ⟨k1, v1⟩ := p
    rw [show mapKeys ((k1, v1) :: rest) = k1 :: mapKeys rest from rfl,
      List.nodup_cons] at h
    by_cases hk : k1 = k
    · subst hk
      rw [show mapSet ((k1, v1) :: rest) k1 v = (k1, v) :: rest from by
        simp [mapSet]]
      rw [show mapKeys ((k1, v) :: rest) = k1 :: mapKeys rest from rfl,
        List.nodup_cons]
      exact h
    · rw [show mapSet ((k1, v1) :: rest) k v = (k1, v1) :: mapSet rest k v from by
        simp [mapSet, hk]]
      rw [show mapKeys ((k1, v1) :: mapSet rest k v) =
        k1 :: mapKeys (mapSet rest k v) from rfl, List.nodup_cons]
      refine ⟨?_, ih h.2⟩
      intro hmem
      rcases (mem_mapKeys_mapSet rest k v k1).mp hmem with h1 | h2
      · exact h.1 h1
      · exact hk h2

theorem mapLookup_mapDelete_self (m : List (String × String)) (k : String)
    (h : (mapKeys m).Nodup) : mapLookup (mapDelete m k) k = none := by
  induction m with
  | nil => rfl
  | cons p rest ih =>
    obtain ⟨k1, v1⟩ := p
    rw [show mapKeys ((k1, v1) :: rest) = k1 :: mapKeys rest from rfl,
      List.nodup_cons] at h
    by_cases hk : k1 = k
    · subst hk
      rw [show mapDelete ((k1, v1) :: rest) k1 = rest from by simp [mapDelete]]
      exact mapLookup_eq_none_of_not_mem rest k1 h.1
    · rw [show mapDelete ((k1, v1) :: rest) k = (k1, v1) :: mapDelete rest k from by
        simp [mapDelete, hk]]
      simp only [mapLookup, if_neg hk]
      exact ih h.2

theorem mapKeys_mapDelete_subset (m : List (String × String)) (k : String) :
    mapKeys (mapDelete m k) ⊆ mapKeys m := by
  induction m with
  | nil => intro x hx; simpa [mapDelete] using hx
  | cons p rest ih =>
    obtain ⟨k1, v1⟩ := p
    intro x hx
    by_cases hk : k1 = k
    · subst hk
      rw [show mapDelete ((k1, v1) :: rest) k1 = rest from by simp [mapDelete]] at hx
      show x ∈ k1 :: mapKeys rest
      exact List.mem_cons_of_mem k1 hx
    · rw [show mapDelete ((k1, v1) :: rest) k = (k1, v1) :: mapDelete rest k from by
        simp [mapDelete, hk]] at hx
      rcases (List.mem_cons).mp hx with rfl | hx2
      · exact List.mem_cons_self _ _
      · exact List.mem_cons_of_mem k1 (ih hx2)

theorem nodup_mapKeys_mapDelete (m : List (String × String)) (k : String)
    (h : (mapKeys m).Nodup) : (mapKeys (mapDelete m k)).Nodup := by
  induction m with
  | nil => simp [mapDelete, mapKeys]
  | cons p rest ih =>
    obtain ⟨k1, v1⟩ := p
    rw [show mapKeys ((k1, v1) :: rest) = k1 :: mapKeys rest from rfl,
      List.nodup_cons] at h
    by_cases hk : k1 = k
    · subst hk
      rw [show mapDelete ((k1, v1) :: rest) k1 = rest from by simp [mapDelete]]
      exact h.2
    · rw [show mapDelete ((k1, v1) :: rest) k = (k1, v1) :: mapDelete rest k from by
        simp [mapDelete, hk]]
      rw [show mapKeys ((k1, v1) :: mapDelete rest k) =
        k1 :: mapKeys (mapDelete rest k) from rfl, List.nodup_cons]
      exact ⟨fun hmem => h.1 (mapKeys_mapDelete_subset rest k hmem), ih h.2⟩

theorem nodup_mapKeys_runEvents (m : List (String × String))
    (h : (mapKeys m).Nodup) :
    ∀ es : List SocketEvent, (mapKeys (runEvents m es)).Nodup := by
  intro es
  induction es generalizing m with
  | nil => exact h
  | cons e es ih =>
    cases e with
    | connect u s => exact ih (mapSet m u s) (nodup_mapKeys_mapSet m u s h)
    | disconnect u s => exact ih (mapDelete m u) (nodup_mapKeys_mapDelete m u h)

/-- C9 claim instance at a concrete input, shown false: starting from an empty
registry, user u connects twice (sockets s1 then s2) and then the stale first
socket disconnects.  The claim predicts the entry now held by s2 survives; in
the code the disconnect handler deletes by user id, so the entry is gone. -/
theorem presence_stale_disconnect_removes_entry :
    mapLookup
      (runEvents []
        [SocketEvent.connect "u" "s1", SocketEvent.connect "u" "s2",
         SocketEvent.disconnect "u" "s1"]) "u" ≠ some "s2" := by
  decide

/-- C9 (amended): a presence entry is destroyed by the disconnect of any
connection authenticated as the same user, not only the connection that
created it.  For every prior event history from process start (where the
registry begins empty), after user u connects twice and the first, stale,
connection disconnects, the registry has no entry for u at all. -/
theorem presence_entry_removed_by_stale_disconnect
    (pre : List SocketEvent) (u s1 s2 : String) :
    mapLookup
      (runEvents (runEvents [] pre)
        [SocketEvent.connect u s1, SocketEvent.connect u s2,
         SocketEvent.disconnect u s1]) u = none := by
  have hnd : (mapKeys (runEvents [] pre)).Nodup :=
    nodup_mapKeys_runEvents [] (by simp [mapKeys]) pre
  show mapLookup
      (mapDelete (mapSet (mapSet (runEvents [] pre) u s1) u s2) u) u = none
  exact mapLookup_mapDelete_self _ u
    (nodup_mapKeys_mapSet _ u s2 (nodup_mapKeys_mapSet _ u s1 hnd))

/-- C10: the `initialOnlineStatus` snapshot taken by the connection handler
includes the connecting session's own user id, because the registration
`onlineUsers.set(userId, socketId)` happens before the snapshot of
`onlineUsers.keys()` is taken. -/
theorem initialOnlineStatus_contains_self
    (m : List (String × String)) (userId socketId : String) :
    userId ∈ (connectionAdmit m userId socketId).2 :=
  self_mem_mapKeys_mapSet m userId socketId

/-- C6: a sendMessage payload lacking a recipientId is acknowledged with the
request-validation error, no message is persisted and no push is emitted,
regardless of the rest of the payload and of the persistence outcome. -/
theorem sendMessage_missing_recipient (st : ServerState) (userId : String)
    (content : Option String) (file : Option FileDesc)
    (senderName tempId : Option String) (persist : Option (String × Int)) :
    sendMessage st userId
      { recipientId := none, content := content, file := file,
        senderName := senderName, tempId := tempId } persist =
      (st, none, Ack.error (some "Recipient ID is required")) := rfl

theorem jsTruthyStr_some_ne (rid : String) (h : rid ≠ "") :
    jsTruthyStr (some rid) = true := by
  simp only [jsTruthyStr, Bool.not_eq_true']
  cases hcase : rid.isEmpty
  · rfl
  · exact absurd ((String.isEmpty_iff rid).mp hcase) h

theorem sendMessage_fail_eq (st : ServerState) (userId : String)
    (data : SendData) (rid : String)
    (h1 : data.recipientId = some rid) (h2 : rid ≠ "") :
    sendMessage st userId data none =
      (st, none, Ack.error (some "Failed to send message")) := by
  have ht : jsTruthyStr data.recipientId = true := by
    rw [h1]; exact jsTruthyStr_some_ne rid h2
  simp [sendMessage, ht]

theorem sendMessage_success_eq (st : ServerState) (userId : String)
    (data : SendData) (rid mid : String) (ts : Int)
    (h1 : data.recipientId = some rid) (h2 : rid ≠ "") :
    sendMessage st userId data (some (mid, ts)) =
      ({ st with store := st.store ++
          [buildMessage userId rid (data.content.getD "") data.file mid ts] },
       (mapLookup st.onlineUsers rid).map
        (fun sid => (sid,
          { messageResponseOf (buildMessage userId rid (data.content.getD "")
              data.file mid ts) with isOwn := false })),
       Ack.success (some
        { messageResponseOf (buildMessage userId rid (data.content.getD "")
            data.file mid ts) with
          isOwn := true
          id :=
            match data.tempId with
            | some t => if t.isEmpty then "msg_" ++ mid else t
            | none => "msg_" ++ mid })) := by
  have ht : jsTruthyStr data.recipientId = true := by
    rw [h1]; exact jsTruthyStr_some_ne rid h2
  simp [sendMessage, ht, h1, jsTruthyStr_some_ne rid h2]

/-- C3 (amended): send is persist-before-push and atomic on failure: for a
payload with a non-empty recipientId, when persistence fails the sender is
acknowledged with the generic send-failure error, no push is produced and no
message state is created; when persistence succeeds the persisted message is
appended to the store, the push (present exactly when the recipient is
registered online) carries the display-prefixed persisted id and the
persisted timestamp, and the success ack carries the persisted timestamp but
substitutes the client correlation id as its id whenever a truthy (non-empty)
one was supplied, falling back to the display-prefixed persisted id. -/
theorem sendMessage_persist_before_push (st : ServerState) (userId : String)
    (data : SendData) (rid mid : String) (ts : Int)
    (h1 : data.recipientId = some rid) (h2 : rid ≠ "") :
    sendMessage st userId data none =
      (st, none, Ack.error (some "Failed to send message")) ∧
    ∃ saved : Message, ∃ pv av : MessageView,
      (sendMessage st userId data (some (mid, ts))).1.store =
        st.store ++ [saved] ∧
      saved.mongoId = mid ∧ saved.timestamp = ts ∧
      (sendMessage st userId data (some (mid, ts))).2.1 =
        (mapLookup st.onlineUsers rid).map (fun sid => (sid, pv)) ∧
      pv.id = "msg_" ++ mid ∧ pv.timestamp = ts ∧ pv.isOwn = false ∧
      (sendMessage st userId data (some (mid, ts))).2.2 =
        Ack.success (some av) ∧
      av.timestamp = ts ∧ av.isOwn = true ∧
      av.id =
        (match data.tempId with
         | some t => if t.isEmpty then "msg_" ++ mid else t
         | none => "msg_" ++ mid) := by
  refine ⟨sendMessage_fail_eq st userId data rid h1 h2, ?_⟩
  rw [sendMessage_success_eq st userId data rid mid ts h1 h2]
  exact ⟨_, _, _, rfl, rfl, rfl, rfl, rfl, rfl, rfl, rfl, rfl, rfl, rfl⟩

/-- Witness for the amended C3 theorem: concrete facts obtained by applying
it at a concrete input (sender u1, online recipient u2, correlation id t1). -/
theorem sendMessage_persist_before_push_w :
    (sendMessage ⟨[], [("u2", "s2")]⟩ "u1"
        ⟨some "u2", some "hi", none, none, some "t1"⟩ none).2.2 =
      Ack.error (some "Failed to send message") ∧
    (sendMessage ⟨[], [("u2", "s2")]⟩ "u1"
        ⟨some "u2", some "hi", none, none, some "t1"⟩ none).1.store = [] ∧
    (sendMessage ⟨[], [("u2", "s2")]⟩ "u1"
        ⟨some "u2", some "hi", none, none, some "t1"⟩
        (some ("1", 5))).1.store.map (fun m => m.timestamp) = [5] := by
  obtain ⟨hfail, saved, pv, av, hst, hmid, hts, hpush, hpid, hpts, hpo,
    hack, hats, hao, hid⟩ :=
    sendMessage_persist_before_push ⟨[], [("u2", "s2")]⟩ "u1"
      ⟨some "u2", some "hi", none, none, some "t1"⟩ "u2" "1" 5 rfl (by decide)
  refine ⟨congrArg (fun r => r.2.2) hfail, congrArg (fun r => r.1.store) hfail, ?_⟩
  rw [hst]
  simp [hts]

/-- C3 counterexample: at a concrete send with a client correlation id and an
online recipient, the push and the acknowledgement do not carry the same
message id: the push carries the display-prefixed persisted id msg_1 while
the ack carries the correlation id t1, refuting the claim that both carry
the same persisted message id. -/
theorem sendMessage_push_ack_ids_differ :
    pushMessageId (sendMessage ⟨[], [("u2", "s2")]⟩ "u1"
        ⟨some "u2", some "hi", none, none, some "t1"⟩ (some ("1", 5))).2.1 =
      some "msg_1" ∧
    ackMessageId (sendMessage ⟨[], [("u2", "s2")]⟩ "u1"
        ⟨some "u2", some "hi", none, none, some "t1"⟩ (some ("1", 5))).2.2 =
      some "t1" ∧
    ("msg_1" : String) ≠ "t1" :=
  ⟨rfl, rfl, by decide⟩

/-- C5 (amended): every successful sendMessage acknowledges the sender with
status success and the persisted message marked as own: all message fields of
the ack payload reflect the persisted document, and its id is the client
correlation id whenever a truthy (non-empty) one was supplied and the
display-prefixed store id otherwise (absent or empty correlation id). -/
theorem sendMessage_success_ack (st : ServerState) (userId : String)
    (data : SendData) (rid mid : String) (ts : Int)
    (h1 : data.recipientId = some rid) (h2 : rid ≠ "") :
    ∃ saved : Message, ∃ av : MessageView,
      (sendMessage st userId data (some (mid, ts))).1.store =
        st.store ++ [saved] ∧
      (sendMessage st userId data (some (mid, ts))).2.2 =
        Ack.success (some av) ∧
      av.isOwn = true ∧
      av.senderId = saved.senderId ∧ av.recipientId = saved.recipientId ∧
      av.content = saved.content ∧ av.file = saved.file ∧
      av.timestamp = saved.timestamp ∧ av.status = saved.status ∧
      av.isRead = saved.isRead ∧
      av.id =
        (match data.tempId with
         | some t => if t.isEmpty then "msg_" ++ mid else t
         | none => "msg_" ++ mid) := by
  rw [sendMessage_success_eq st userId data rid mid ts h1 h2]
  exact ⟨_, _, rfl, rfl, rfl, rfl, rfl, rfl, rfl, rfl, rfl, rfl, rfl⟩

/-- Witness for the amended C5 theorem: at a concrete input with a non-empty
correlation id t9, the ack carries id t9. -/
theorem sendMessage_success_ack_w :
    ackMessageId (sendMessage ⟨[], []⟩ "u1"
        ⟨some "u2", some "hi", none, none, some "t9"⟩ (some ("2", 7))).2.2 =
      some "t9" := by
  obtain ⟨saved, av, hst, hack, hao, hsend, hrec, hcon, hfile, hts, hstat,
    hread, hid⟩ :=
    sendMessage_success_ack ⟨[], []⟩ "u1"
      ⟨some "u2", some "hi", none, none, some "t9"⟩ "u2" "2" 7 rfl (by decide)
  rw [hack]
  show some av.id = some "t9"
  rw [hid]
  rfl

/-- C5 counterexample: a supplied but empty correlation id is falsy in JS, so
at this concrete input the ack id falls back to the display-prefixed store id
instead of being the supplied correlation id, refuting the claim for the
supplied empty correlation id. -/
theorem sendMessage_empty_tempId_not_substituted :
    ackMessageId (sendMessage ⟨[], []⟩ "u1"
        ⟨some "u2", some "hi", none, none, some ""⟩ (some ("1", 5))).2.2 =
      some "msg_1" ∧ ("msg_1" : String) ≠ "" :=
  ⟨rfl, by decide⟩

/-- C8: the messageType of the persisted message is derived at creation from
the file descriptor alone: text when no descriptor is present, voice_note
when a descriptor flagged as a voice note is present, file when a descriptor
without the flag is present; and any two sends whose payloads agree on the
file field persist the same messageType no matter how the rest of their
payloads and states differ. -/
theorem messageType_derived_from_file (st : ServerState) (userId : String)
    (data : SendData) (rid mid : String) (ts : Int)
    (h1 : data.recipientId = some rid) (h2 : rid ≠ "") :
    ∃ saved : Message,
      (sendMessage st userId data (some (mid, ts))).1.store =
        st.store ++ [saved] ∧
      (data.file = none → saved.messageType = "text") ∧
      (∀ f : FileDesc, data.file = some f → f.isVoiceNote = true →
        saved.messageType = "voice_note") ∧
      (∀ f : FileDesc, data.file = some f → f.isVoiceNote = false →
        saved.messageType = "file") ∧
      (∀ (st2 : ServerState) (userId2 : String) (data2 : SendData)
          (rid2 mid2 : String) (ts2 : Int),
        data2.recipientId = some rid2 → rid2 ≠ "" → data2.file = data.file →
        ∃ saved2 : Message,
          (sendMessage st2 userId2 data2 (some (mid2, ts2))).1.store =
            st2.store ++ [saved2] ∧
          saved2.messageType = saved.messageType) := by
  rw [sendMessage_success_eq st userId data rid mid ts h1 h2]
  refine ⟨_, rfl, ?_, ?_, ?_, ?_⟩
  · intro hf; simp [buildMessage, hf]
  · intro f hf hv; simp [buildMessage, hf, hv]
  · intro f hf hv; simp [buildMessage, hf, hv]
  · intro st2 userId2 data2 rid2 mid2 ts2 g1 g2 g3
    rw [sendMessage_success_eq st2 userId2 data2 rid2 mid2 ts2 g1 g2]
    refine ⟨_, rfl, ?_⟩
    simp [buildMessage, g3]

/-- Witness for the C8 theorem: a send carrying a voice-note descriptor
persists messageType voice_note. -/
theorem messageType_derived_from_file_w :
    (sendMessage ⟨[], []⟩ "u1" ⟨some "u2", none, some ⟨"v", true⟩, none, none⟩
        (some ("1", 5))).1.store.map (fun m => m.messageType) =
      ["voice_note"] := by
  obtain ⟨saved, hst, htext, hvn, hfile, hdet⟩ :=
    messageType_derived_from_file ⟨[], []⟩ "u1"
      ⟨some "u2", none, some ⟨"v", true⟩, none, none⟩ "u2" "1" 5 rfl (by decide)
  rw [hst]
  simp [hvn ⟨"v", true⟩ rfl rfl]

theorem mem_jsSetOfList_aux (l acc : List String) (x : String) :
    x ∈ l.foldl (fun acc a => if a ∈ acc then acc else acc ++ [a]) acc ↔
      x ∈ acc ∨ x ∈ l := by
  induction l generalizing acc with
  | nil => simp
  | cons a l ih =>
    simp only [List.foldl_cons, List.mem_cons]
    by_cases h : a ∈ acc
    · rw [if_pos h, ih]
      constructor
      · rintro (hx | hx)
        · exact Or.inl hx
        · exact Or.inr (Or.inr hx)
      · rintro (hx | rfl | hx)
        · exact Or.inl hx
        · exact Or.inl h
        · exact Or.inr hx
    · rw [if_neg h, ih]
      simp only [List.mem_append, List.mem_singleton]
      tauto

theorem mem_jsSetOfList (l : List String) (x : String) :
    x ∈ jsSetOfList l ↔ x ∈ l := by
  rw [jsSetOfList, mem_jsSetOfList_aux]
  simp

/-- C1: read-receipt authorization: pointwise over the store, a markAsRead
batch updates every message whose id is in the batch and whose recipient is
the caller to isRead true and status read with all other fields preserved,
and leaves every other message (in particular a batch message addressed to
someone other than the caller) completely unchanged. -/
theorem markAsRead_updates_only_callers_messages (st : ServerState)
    (callerId : String) (messageIds : List String) :
    List.Forall₂ (fun m m2 : Message =>
      (m.mongoId ∈ messageIds.map stripMsgId ∧ m.recipientId = callerId →
        m2.isRead = true ∧ m2.status = "read" ∧ m2.mongoId = m.mongoId ∧
        m2.senderId = m.senderId ∧ m2.recipientId = m.recipientId ∧
        m2.content = m.content ∧ m2.file = m.file ∧
        m2.messageType = m.messageType ∧ m2.timestamp = m.timestamp) ∧
      (¬(m.mongoId ∈ messageIds.map stripMsgId ∧ m.recipientId = callerId) →
        m2 = m))
      st.store (markAsRead st callerId messageIds).1.store := by
  show List.Forall₂ _ st.store
    (st.store.map (fun m =>
      if m.mongoId ∈ messageIds.map stripMsgId ∧ m.recipientId = callerId then
        { m with isRead := true, status := "read" }
      else m))
  rw [List.forall₂_map_right_iff, List.forall₂_same]
  intro m hm
  by_cases hc : m.mongoId ∈ messageIds.map stripMsgId ∧ m.recipientId = callerId
  · exact ⟨fun _ => by rw [if_pos hc]; exact ⟨rfl, rfl, rfl, rfl, rfl, rfl, rfl, rfl, rfl⟩,
      fun hn => absurd hc hn⟩
  · exact ⟨fun h2 => absurd h2 hc, fun _ => by rw [if_neg hc]⟩

theorem mem_markAsReadPushes (store2 : List Message)
    (online : List (String × String)) (callerId : String)
    (mongoIds : List String) (sid : String) (n : Nat) :
    (sid, n) ∈ markAsReadPushes store2 online callerId mongoIds ↔
      ∃ S : String, mapLookup online S = some sid ∧
        (∃ m ∈ store2, m.mongoId ∈ mongoIds ∧ m.senderId = S) ∧
        n = countUnread store2 S callerId := by
  unfold markAsReadPushes
  rw [List.mem_filterMap]
  constructor
  · rintro ⟨S, hS, hf⟩
    rw [Option.map_eq_some'] at hf
    obtain ⟨k, hk, hkb⟩ := hf
    obtain ⟨rfl, rfl⟩ := Prod.mk.injEq .. ▸ hkb
    rw [mem_jsSetOfList, List.mem_map] at hS
    obtain ⟨m, hm, rfl⟩ := hS
    rw [List.mem_filter] at hm
    exact ⟨m.senderId, hk, ⟨m, hm.1, of_decide_eq_true hm.2, rfl⟩, rfl⟩
  · rintro ⟨S, honline, ⟨m, hm, hid, hsend⟩, rfl⟩
    refine ⟨S, ?_, ?_⟩
    · rw [mem_jsSetOfList, List.mem_map]
      exact ⟨m, List.mem_filter.mpr ⟨hm, decide_eq_true hid⟩, hsend⟩
    · rw [Option.map_eq_some']
      exact ⟨sid, honline, rfl⟩

/-- C4 (amended): the unreadCountUpdate pushes of a markAsRead batch go to
exactly the online registered sockets of the distinct senders of all batch
messages present in the store (the notification query is not restricted to
messages whose recipient is the caller, so senders of non-updated batch
messages are also notified), and each pushed count is the number of messages
from that sender to the caller that remain unread after the update. -/
theorem markAsRead_notifies_senders_of_batch (st : ServerState)
    (callerId : String) (messageIds : List String) (sid : String) (n : Nat) :
    (sid, n) ∈ (markAsRead st callerId messageIds).2.1 ↔
      ∃ S : String, mapLookup st.onlineUsers S = some sid ∧
        (∃ m ∈ (markAsRead st callerId messageIds).1.store,
          m.mongoId ∈ messageIds.map stripMsgId ∧ m.senderId = S) ∧
        n = countUnread (markAsRead st callerId messageIds).1.store
          S callerId := by
  show (sid, n) ∈ markAsReadPushes
      (markAsReadStore st.store callerId (messageIds.map stripMsgId))
      st.onlineUsers callerId (messageIds.map stripMsgId) ↔ _
  rw [mem_markAsReadPushes]
  rfl

/-- C4 counterexample: with messages m1 (sender s1, recipient the caller A)
and m2 (sender s2, recipient B), caller A marking both as read pushes an
unreadCountUpdate to s2, the sender of the non-updated message m2, with the
count 0 of unread messages from s2 to A; the claim predicts no push at all
since s1 is offline and s2's message was not updated. -/
theorem markAsRead_notifies_nonupdated_sender :
    (markAsRead ⟨[⟨"1", "s1", "A", "x", none, "text", "sent", false, 1⟩,
        ⟨"2", "s2", "B", "y", none, "text", "sent", false, 2⟩],
        [("s2", "sock2")]⟩ "A" ["msg_1", "msg_2"]).2.1 = [("sock2", 0)] ∧
    ([("sock2", 0)] : List (String × Nat)) ≠ [] := by
  exact ⟨by decide, by decide⟩

/-- C7: the history query returns exactly the messages between the pair in
either orientation (a permutation of the filtered store, compared on the
message fields), in non-decreasing timestamp order, with each entry flagged
as own exactly when the requester was its sender. -/
theorem getHistory_exact_sorted_isOwn (store : List Message)
    (userId contactId : String) :
    List.Perm
      ((getHistory store userId contactId).map
        (fun v => (v.senderId, v.recipientId, v.content, v.timestamp)))
      ((store.filter (pairMatch userId contactId)).map
        (fun m => (m.senderId, m.recipientId, m.content, m.timestamp))) ∧
    List.Pairwise (fun a b : MessageView => a.timestamp ≤ b.timestamp)
      (getHistory store userId contactId) ∧
    (getHistory store userId contactId).all
      (fun v => v.isOwn == (v.senderId == userId)) = true := by
  refine ⟨?_, ?_, ?_⟩
  · show List.Perm
      (((List.insertionSort (fun a b : Message => a.timestamp ≤ b.timestamp)
        (store.filter (pairMatch userId contactId))).map _).map _) _
    rw [List.map_map]
    exact (List.perm_insertionSort _ _).map _
  · show List.Pairwise _
      ((List.insertionSort (fun a b : Message => a.timestamp ≤ b.timestamp)
        (store.filter (pairMatch userId contactId))).map _)
    rw [List.pairwise_map]
    haveI : IsTotal Message (fun a b : Message => a.timestamp ≤ b.timestamp) :=
      ⟨fun a b => le_total a.timestamp b.timestamp⟩
    haveI : IsTrans Message (fun a b : Message => a.timestamp ≤ b.timestamp) :=
      ⟨fun _ _ _ h1 h2 => le_trans h1 h2⟩
    exact List.sorted_insertionSort _ _
  · rw [List.all_eq_true]
    intro v hv
    rw [getHistory, List.mem_map] at hv
    obtain ⟨m, hm, rfl⟩ := hv
    exact beq_self_eq_true _

/-- C2: the contacts route does not sort by most-recent-message time.  Its
comparator reads a timestamp property off the preview string, so every
comparison evaluates to NaN, which SortCompare treats as zero, and the
stable sort leaves the enumeration order unchanged.  At this concrete input
the counterpart c2 has the newest message yet c1 is enumerated first, and
the result keeps the enumeration order c1, c2 instead of the descending
most-recent-message order c2, c1 the claim requires. -/
theorem getContacts_keeps_enumeration_order :
    (getContacts [⟨"1", "c1", "u", "a", none, "text", "sent", false, 1⟩,
        ⟨"2", "c2", "u", "b", none, "text", "sent", false, 2⟩] [] [] "u"
      ["c1", "c2"]).map (fun c => c.id) = ["c1", "c2"] ∧
    (["c1", "c2"] : List String) ≠ ["c2", "c1"] := by
  exact ⟨by decide, by decide⟩

theorem jsCompareEffective_eq_zero (a b : ContactEntry) :
    jsCompareEffective a b = 0 := by
  unfold jsCompareEffective jsSortTime
  by_cases ha : a.lastMessage.isEmpty <;> by_cases hb : b.lastMessage.isEmpty <;>
    simp [ha, hb]

theorem insertionSort_id_of_total {α : Type} (r : α → α → Prop)
    [DecidableRel r] (h : ∀ a b, r a b) :
    ∀ l : List α, List.insertionSort r l = l := by
  intro l
  induction l with
  | nil => rfl
  | cons a l ih =>
    show List.orderedInsert r a (List.insertionSort r l) = a :: l
    rw [ih]
    cases l with
    | nil => rfl
    | cons b l2 => simp [List.orderedInsert, if_pos (h a b)]

/-- The contacts pipeline returns the summaries in enumeration order for
every input: the comparator result is always zero, so the stable sort is the
identity. -/
theorem getContacts_eq_enumeration (store : List Message)
    (users : List UserRec) (online : List (String × String))
    (userId : String) (contactIds : List String) :
    getContacts store users online userId contactIds =
      contactIds.map (contactCard store users online userId) := by
  unfold getContacts
  exact insertionSort_id_of_total _
    (fun a b => by rw [jsCompareEffective_eq_zero]) _
